import Mathlib

/-!
Shallow embedding of the darwin-notify crate (src/lib.rs): the error
taxonomy `NotifyError` with its conversion function `from_u32`, the
`ns_result!` status-code dispatch, and the safe facade operations
`notify_post`, `notify_register`, `notify_suspend`, `notify_resume`,
`notify_cancel`, `notify_set_state`, `notify_get_state`, `notify_check`.

Foreign calls are external: each wrapper is parameterised by the raw
status code the foreign call returns and by any value the foreign call
writes back through an out-pointer.  Strings are modelled as lists of
byte values; machine integers as Nat or Int.  The `tracing` diagnostic
emitted on an unrecognized code is modelled as an explicit log component
(the list of offending codes), and the lifecycle of the heap-copied
callback block in `notify_register` is modelled as an explicit event
trace mirroring the Rust ownership semantics of the block crate
(ConcreteBlock::new(..).copy() heap-allocates a reference-counted block;
dropping the resulting RcBlock at scope exit releases it).
-/

/-- Errors returned by the Darwin Notify API (enum NotifyError in src/lib.rs). -/
inductive NotifyError where
  | InvalidName
  | InvalidToken
  | InvalidPort
  | InvalidFile
  | InvalidSignal
  | InvalidRequest
  | NotAuthorized
  | OptDisabled
  | ServerNotFound
  | NullInput
  | Failed
  | Unknown
deriving DecidableEq, Repr

/-- The raw status codes that `from_u32` recognizes with a dedicated arm. -/
def recognizedCodes : List Nat := [1, 2, 3, 4, 5, 6, 7, 8, 9, 10, 1000000]

/-- NotifyError::from_u32 together with its diagnostic emission: the Rust
match maps each recognized literal to its variant, and the catch-all arm
logs the offending code via tracing and returns Unknown.  The second
component is the list of codes logged during the call (empty on every
recognized arm, the single offending code on the catch-all arm). -/
def NotifyError.from_u32_traced (code : Nat) : NotifyError × List Nat :=
  if code = 1 then (.InvalidName, [])
  else if code = 2 then (.InvalidToken, [])
  else if code = 3 then (.InvalidPort, [])
  else if code = 4 then (.InvalidFile, [])
  else if code = 5 then (.InvalidSignal, [])
  else if code = 6 then (.InvalidRequest, [])
  else if code = 7 then (.NotAuthorized, [])
  else if code = 8 then (.OptDisabled, [])
  else if code = 9 then (.ServerNotFound, [])
  else if code = 10 then (.NullInput, [])
  else if code = 1000000 then (.Failed, [])
  else (.Unknown, [code])

/-- The value NotifyError::from_u32 returns (diagnostic component dropped). -/
def NotifyError.from_u32 (code : Nat) : NotifyError :=
  (NotifyError.from_u32_traced code).1

/-- The diagnostic log emitted by a call to NotifyError::from_u32. -/
def from_u32_log (code : Nat) : List Nat :=
  (NotifyError.from_u32_traced code).2

/-- The ns_result! macro: status code 0 becomes Ok(()), every other code
becomes Err(NotifyError::from_u32(code)). -/
def ns_result (code : Nat) : Except NotifyError Unit :=
  match code with
  | 0 => .ok ()
  | code => .error (NotifyError.from_u32 code)

/-- The kind column of the section 4.2 table of the spec, transcribed
from the words of the spec for comparison with the source function:
row 0 is the success row (no error kind, modelled as none), rows 1..=10
and 1000000 name their kinds, and every other code is the fallback row. -/
def specTableKind (code : Nat) : Option NotifyError :=
  if code = 0 then none
  else if code = 1 then some .InvalidName
  else if code = 2 then some .InvalidToken
  else if code = 3 then some .InvalidPort
  else if code = 4 then some .InvalidFile
  else if code = 5 then some .InvalidSignal
  else if code = 6 then some .InvalidRequest
  else if code = 7 then some .NotAuthorized
  else if code = 8 then some .OptDisabled
  else if code = 9 then some .ServerNotFound
  else if code = 10 then some .NullInput
  else if code = 1000000 then some .Failed
  else some .Unknown

/-- CString::new on a byte string: fails (NulError) when the string
contains an embedded null byte, otherwise yields the bytes with a
terminating null appended. -/
def cstring_new (s : List Nat) : Option (List Nat) :=
  if s.contains 0 then none else some (s ++ [0])

/-- notify_post: converts the name with CString::new(..).unwrap() and
funnels the raw code of the foreign call through ns_result!.  The first
component is none when the unwrap panics (embedded null byte), otherwise
some result; the second component is the list of C strings passed to
foreign calls during the invocation. -/
def notify_post (name : List Nat) (code : Nat) :
    Option (Except NotifyError Unit) × List (List Nat) :=
  match cstring_new name with
  | none => (none, [])
  | some cs => (some (ns_result code), [cs])

/-- Lifecycle events of the heap-copied callback block inside
notify_register, in program order. -/
inductive BlockEvent where
  | copy
  | ffiRegister (cs : List Nat)
  | release
deriving DecidableEq, Repr

/-- notify_register: converts the name (panics on an embedded null byte,
before any block is created or any foreign call is made), heap-copies the
callback block, calls notify_register_dispatch with the C string, an
out-pointer for the token and a raw pointer to the block, then returns
Ok(written-back token) on code 0 and Err(from_u32 code) otherwise.  The
RcBlock binding is dropped when the function returns, which releases the
counted reference on both paths; the event trace records this.  `code` is
the raw status the foreign call returns and `written` the token value it
writes into the out slot. -/
def notify_register (name : List Nat) (code : Nat) (written : Int) :
    Option (Except NotifyError Int) × List BlockEvent :=
  match cstring_new name with
  | none => (none, [])
  | some cs =>
    let result : Except NotifyError Int :=
      match code with
      | 0 => .ok written
      | code => .error (NotifyError.from_u32 code)
    (some result, [.copy, .ffiRegister cs, .release])

/-- notify_suspend: funnels the raw code through ns_result!. -/
def notify_suspend (_token : Int) (code : Nat) : Except NotifyError Unit :=
  ns_result code

/-- notify_resume: funnels the raw code through ns_result!. -/
def notify_resume (_token : Int) (code : Nat) : Except NotifyError Unit :=
  ns_result code

/-- notify_cancel: funnels the raw code through ns_result!. -/
def notify_cancel (_token : Int) (code : Nat) : Except NotifyError Unit :=
  ns_result code

/-- notify_set_state: funnels the raw code through ns_result!.  `state`
is the u64 value passed to the foreign call. -/
def notify_set_state (_token : Int) (_state : Nat) (code : Nat) :
    Except NotifyError Unit :=
  ns_result code

/-- notify_get_state: on code 0 returns the u64 the foreign call wrote
into the out slot, otherwise Err(from_u32 code). -/
def notify_get_state (_token : Int) (code : Nat) (written : Nat) :
    Except NotifyError Nat :=
  match code with
  | 0 => .ok written
  | code => .error (NotifyError.from_u32 code)

/-- notify_check: on code 0 returns (written == 1) where written is the
c_int the foreign call wrote into the out slot, otherwise
Err(from_u32 code). -/
def notify_check (_token : Int) (code : Nat) (written : Int) :
    Except NotifyError Bool :=
  match code with
  | 0 => .ok (written == 1)
  | code => .error (NotifyError.from_u32 code)

/-- Modelled from the spec: the OS daemon state behind the sys bindings.
The sys module is generated at build time by build.rs and is not present
under src, so the daemon behaviour of the state calls is taken from the
data-model section of the spec: a StateValue is a 64-bit unsigned integer
associated with a token, stored and managed entirely inside the OS daemon
and keyed by token; a token remains valid (active) until canceled. -/
structure Daemon where
  active : Int → Bool
  state : Int → Nat

/-- Modelled from the spec: sys::notify_set_state on a valid active token
stores the value against the token inside the daemon and reports status 0;
on an invalid token it reports the InvalidToken status 2. -/
def sys_notify_set_state (d : Daemon) (token : Int) (v : Nat) : Daemon × Nat :=
  if d.active token then
    ({ d with state := fun t => if t = token then v else d.state t }, 0)
  else (d, 2)

/-- Modelled from the spec: sys::notify_get_state on a valid active token
writes the state stored against the token into the out slot and reports
status 0; on an invalid token it reports the InvalidToken status 2. -/
def sys_notify_get_state (d : Daemon) (token : Int) : Nat × Nat :=
  if d.active token then (d.state token, 0) else (0, 2)

/-- notify_set_state run against the daemon model: the wrapper passes the
token and value to the foreign call and funnels the returned status
through ns_result!. -/
def notify_set_state_d (d : Daemon) (token : Int) (v : Nat) :
    Daemon × Except NotifyError Unit :=
  match sys_notify_set_state d token v with
  | (d2, code) => (d2, notify_set_state token v code)

/-- notify_get_state run against the daemon model: the wrapper passes the
token and an out slot to the foreign call and maps status 0 to the value
written into the slot. -/
def notify_get_state_d (d : Daemon) (token : Int) : Except NotifyError Nat :=
  match sys_notify_get_state d token with
  | (written, code) => notify_get_state token code written

example : NotifyError.from_u32 0 = .Unknown := by decide
example : NotifyError.from_u32 7 = .NotAuthorized := by decide
example : from_u32_log 0 = [0] := by decide
example : ns_result 0 = .ok () := rfl
example : notify_check 3 0 (-5) = .ok false := rfl

/-- Claim C1, counterexample: at raw code 0 the table of section 4.2 has
the success row (no error kind), but from_u32 applied to 0 does not yield
a success result: it returns the error kind Unknown.  So from_u32 does
not realize the table row for 0; the mapping of 0 to the ok result lives
at the call sites, not in from_u32. -/
theorem from_u32_zero_not_success :
    specTableKind 0 = none ∧ NotifyError.from_u32 0 = NotifyError.Unknown :=
  ⟨by decide, by decide⟩

/-- Claim C1, amended: for raw codes 1..=10 and 1000000, from_u32 returns
exactly the kind of the section 4.2 table, and for every other input,
including 0, it returns the fallback kind Unknown; the mapping of code 0
to the ok result is performed at each call site before from_u32 is
invoked, not by from_u32 itself. -/
theorem from_u32_matches_table_except_zero (code : Nat) :
    NotifyError.from_u32 code = (specTableKind code).getD NotifyError.Unknown := by
  by_cases h0 : code = 0
  · subst h0; rfl
  by_cases h1 : code = 1
  · subst h1; rfl
  by_cases h2 : code = 2
  · subst h2; rfl
  by_cases h3 : code = 3
  · subst h3; rfl
  by_cases h4 : code = 4
  · subst h4; rfl
  by_cases h5 : code = 5
  · subst h5; rfl
  by_cases h6 : code = 6
  · subst h6; rfl
  by_cases h7 : code = 7
  · subst h7; rfl
  by_cases h8 : code = 8
  · subst h8; rfl
  by_cases h9 : code = 9
  · subst h9; rfl
  by_cases h10 : code = 10
  · subst h10; rfl
  by_cases h11 : code = 1000000
  · subst h11; rfl
  simp [NotifyError.from_u32, NotifyError.from_u32_traced, specTableKind,
    h0, h1, h2, h3, h4, h5, h6, h7, h8, h9, h10, h11]

/-- Claim C2: from_u32 is total and pure on every 32-bit input (the
embedding is a total function by construction, mirroring the exhaustive
Rust match, so no input can fail or panic), and every unrecognized
non-zero input is mapped to the fallback kind Unknown while a diagnostic
naming the unexpected code is logged rather than thrown. -/
theorem from_u32_total_unknown_logs (code : Nat) (_hlt : code < 2 ^ 32)
    (_hnz : code ≠ 0) (hur : code ∉ recognizedCodes) :
    NotifyError.from_u32 code = NotifyError.Unknown ∧ from_u32_log code = [code] := by
  simp only [recognizedCodes, List.mem_cons, List.not_mem_nil, or_false, not_or] at hur
  obtain ⟨h1, h2, h3, h4, h5, h6, h7, h8, h9, h10, h11⟩ := hur
  refine ⟨?_, ?_⟩ <;>
    simp [NotifyError.from_u32, from_u32_log, NotifyError.from_u32_traced,
      h1, h2, h3, h4, h5, h6, h7, h8, h9, h10, h11]

/-- Witness for C2 at the concrete unrecognized code 42. -/
theorem from_u32_total_unknown_logs_witness :
    42 < 2 ^ 32 ∧ 42 ≠ 0 ∧ 42 ∉ recognizedCodes ∧
      (NotifyError.from_u32 42 = NotifyError.Unknown ∧ from_u32_log 42 = [42]) :=
  ⟨by norm_num, by decide, by decide,
    from_u32_total_unknown_logs 42 (by norm_num) (by decide) (by decide)⟩

/-- Claim C3: every public fallible operation returns Ok with its success
data exactly when the raw status code of the underlying foreign call is
0, and otherwise returns Err(from_u32 code); no non-zero code is
swallowed and every error value is produced by the single conversion
function from_u32. -/
theorem ops_funnel_through_from_u32 (name : List Nat) (tok written : Int)
    (wstate code : Nat) (hname : (0 : Nat) ∉ name) :
    (notify_post name code).1 =
      some (if code = 0 then Except.ok () else Except.error (NotifyError.from_u32 code)) ∧
    (notify_register name code tok).1 =
      some (if code = 0 then Except.ok tok else Except.error (NotifyError.from_u32 code)) ∧
    notify_suspend tok code =
      (if code = 0 then Except.ok () else Except.error (NotifyError.from_u32 code)) ∧
    notify_resume tok code =
      (if code = 0 then Except.ok () else Except.error (NotifyError.from_u32 code)) ∧
    notify_cancel tok code =
      (if code = 0 then Except.ok () else Except.error (NotifyError.from_u32 code)) ∧
    notify_set_state tok wstate code =
      (if code = 0 then Except.ok () else Except.error (NotifyError.from_u32 code)) ∧
    notify_get_state tok code wstate =
      (if code = 0 then Except.ok wstate else Except.error (NotifyError.from_u32 code)) ∧
    notify_check tok code written =
      (if code = 0 then Except.ok (written == 1) else Except.error (NotifyError.from_u32 code)) := by
  rcases code with _ | n <;>
    simp [notify_post, notify_register, notify_suspend, notify_resume, notify_cancel,
      notify_set_state, notify_get_state, notify_check, ns_result, cstring_new, hname]

/-- Witness for C3 at a concrete name, token, written-back values and a
concrete status code. -/
theorem ops_funnel_through_from_u32_witness :
    (0 : Nat) ∉ ([116] : List Nat) ∧
    ((notify_post [116] 5).1 =
      some (if 5 = 0 then Except.ok () else Except.error (NotifyError.from_u32 5)) ∧
    (notify_register [116] 5 9).1 =
      some (if 5 = 0 then Except.ok 9 else Except.error (NotifyError.from_u32 5)) ∧
    notify_suspend 9 5 =
      (if 5 = 0 then Except.ok () else Except.error (NotifyError.from_u32 5)) ∧
    notify_resume 9 5 =
      (if 5 = 0 then Except.ok () else Except.error (NotifyError.from_u32 5)) ∧
    notify_cancel 9 5 =
      (if 5 = 0 then Except.ok () else Except.error (NotifyError.from_u32 5)) ∧
    notify_set_state 9 77 5 =
      (if 5 = 0 then Except.ok () else Except.error (NotifyError.from_u32 5)) ∧
    notify_get_state 9 5 77 =
      (if 5 = 0 then Except.ok 77 else Except.error (NotifyError.from_u32 5)) ∧
    notify_check 9 5 1 =
      (if 5 = 0 then Except.ok ((1 : Int) == 1) else Except.error (NotifyError.from_u32 5))) :=
  ⟨by decide, ops_funnel_through_from_u32 [116] 9 1 77 5 (by decide)⟩

/-- Claim C4: for every name containing an embedded null byte, both
notify_register and notify_post panic at the CString conversion (modelled
as the none result, distinct from every ErrorKind value) and make no
foreign call at all (the call trace is empty), so no OS-level side effect
occurs. -/
theorem register_null_name_panics_before_ffi (name : List Nat) (code : Nat)
    (written : Int) (hnull : (0 : Nat) ∈ name) :
    notify_register name code written = (none, []) ∧
    notify_post name code = (none, []) := by
  constructor <;> simp [notify_register, notify_post, cstring_new, hnull]

/-- Witness for C4 at the concrete name [97, 0, 98], which embeds a null
byte. -/
theorem register_null_name_panics_before_ffi_witness :
    (0 : Nat) ∈ ([97, 0, 98] : List Nat) ∧
    (notify_register [97, 0, 98] 5 7 = (none, []) ∧
      notify_post [97, 0, 98] 5 = (none, [])) :=
  ⟨by decide, register_null_name_panics_before_ffi [97, 0, 98] 5 7 (by decide)⟩

/-- Claim C5: when the foreign check call reports status 0, notify_check
returns Ok true exactly when the written-back integer equals 1 and
Ok false for every other written-back value (negative values included);
on a non-zero status it returns the mapped error. -/
theorem check_bool_mapping (tok : Int) (code : Nat) (written : Int) :
    (notify_check tok code written = .ok true ↔ code = 0 ∧ written = 1) ∧
    (code = 0 → written ≠ 1 → notify_check tok code written = .ok false) ∧
    (code ≠ 0 → notify_check tok code written = .error (NotifyError.from_u32 code)) := by
  rcases code with _ | n <;>
    refine ⟨?_, ?_, ?_⟩ <;>
      simp [notify_check, beq_iff_eq, beq_eq_false_iff_ne]

/-- Witness for C5: the three mappings at the concrete written-back
values 1, 5 and -5 on status 0, and at status 2. -/
theorem check_bool_mapping_witness :
    notify_check 3 0 1 = .ok true ∧
    notify_check 3 0 5 = .ok false ∧
    notify_check 3 0 (-5) = .ok false ∧
    notify_check 3 2 1 = .error NotifyError.InvalidToken :=
  ⟨(check_bool_mapping 3 0 1).1.mpr ⟨rfl, rfl⟩,
    (check_bool_mapping 3 0 5).2.1 rfl (by decide),
    (check_bool_mapping 3 0 (-5)).2.1 rfl (by decide),
    (check_bool_mapping 3 2 1).2.2 (by decide)⟩

/-- Claim C6: whenever the foreign registration call reports status 0,
notify_register returns Ok holding exactly the token value the foreign
call wrote back into the output token slot. -/
theorem register_returns_written_token (name : List Nat) (code : Nat)
    (tok : Int) (hname : (0 : Nat) ∉ name) (hcode : code = 0) :
    (notify_register name code tok).1 = some (Except.ok tok) := by
  subst hcode
  simp [notify_register, cstring_new, hname]

/-- Witness for C6 at name [116], status 0 and written-back token 9. -/
theorem register_returns_written_token_witness :
    (0 : Nat) ∉ ([116] : List Nat) ∧
    (notify_register [116] 0 9).1 = some (Except.ok 9) :=
  ⟨by decide, register_returns_written_token [116] 0 9 (by decide) rfl⟩

/-- Claim C7, counterexample: after a successful registration (status 0,
written-back token 7, name [97]), the event trace of notify_register
contains a release of the copied block: the RcBlock binding is dropped
when the function returns, so the facade releases its counted reference
to the adaptation object while the subscription is still active, contrary
to the claim that the object is never released while the subscription
could still be invoked. -/
theorem register_success_releases_block :
    (notify_register [97] 0 7).1 = some (Except.ok 7) ∧
    BlockEvent.release ∈ (notify_register [97] 0 7).2 :=
  ⟨rfl, by decide⟩

/-- Claim C7, amended: notify_register copies the block, passes a raw
pointer to it to the foreign registration call, and then releases its own
counted reference when it returns, on the success path as well as the
failure path; any extension of the lifetime of the adaptation object past
the call can come only from the foreign callee having retained the block,
not from this code. -/
theorem register_block_trace (name : List Nat) (code : Nat) (written : Int)
    (hname : (0 : Nat) ∉ name) :
    (notify_register name code written).2 =
      [BlockEvent.copy, BlockEvent.ffiRegister (name ++ [0]), BlockEvent.release] := by
  simp [notify_register, cstring_new, hname]

/-- Witness for the amended C7 at name [97], status 0, written token 7. -/
theorem register_block_trace_witness :
    (0 : Nat) ∉ ([97] : List Nat) ∧
    (notify_register [97] 0 7).2 =
      [BlockEvent.copy, BlockEvent.ffiRegister [97, 0], BlockEvent.release] :=
  ⟨by decide, register_block_trace [97] 0 7 (by decide)⟩

/-- Claim C8: when the foreign registration call reports a non-zero
status, notify_register returns the mapped ErrorKind and the copied block
is released before notify_register returns (the trace ends with the
release of the only counted reference), so the failure path leaks no
allocation. -/
theorem register_failure_releases_block (name : List Nat) (code : Nat)
    (written : Int) (hname : (0 : Nat) ∉ name) (hcode : code ≠ 0) :
    (notify_register name code written).1 =
      some (Except.error (NotifyError.from_u32 code)) ∧
    (notify_register name code written).2 =
      [BlockEvent.copy, BlockEvent.ffiRegister (name ++ [0]), BlockEvent.release] := by
  rcases code with _ | n
  · exact absurd rfl hcode
  · constructor <;> simp [notify_register, cstring_new, hname]

/-- Witness for C8 at name [97], failing status 2, written token 7. -/
theorem register_failure_releases_block_witness :
    (0 : Nat) ∉ ([97] : List Nat) ∧ (2 : Nat) ≠ 0 ∧
    ((notify_register [97] 2 7).1 =
      some (Except.error (NotifyError.from_u32 2)) ∧
    (notify_register [97] 2 7).2 =
      [BlockEvent.copy, BlockEvent.ffiRegister [97, 0], BlockEvent.release]) :=
  ⟨by decide, by decide, register_failure_releases_block [97] 2 7 (by decide) (by decide)⟩

/-- Claim C9: against the spec-modelled daemon, for every valid active
token and every u64 value v (0 and the maximum included), a successful
notify_set_state with v followed by notify_get_state on the same token
yields Ok v; the state lives entirely in the daemon keyed by token. -/
theorem set_get_state_roundtrip (d : Daemon) (token : Int) (v : Nat)
    (_hv : v < 2 ^ 64) (hactive : d.active token = true) :
    (notify_set_state_d d token v).2 = .ok () ∧
    notify_get_state_d (notify_set_state_d d token v).1 token = .ok v := by
  constructor <;>
    simp [notify_set_state_d, notify_get_state_d, sys_notify_set_state,
      sys_notify_get_state, notify_set_state, notify_get_state, ns_result, hactive]

/-- Witness for C9: an everywhere-active daemon, token 5 and the value
u64::MAX. -/
theorem set_get_state_roundtrip_witness :
    18446744073709551615 < 2 ^ 64 ∧
    (Daemon.mk (fun _ => true) (fun _ => 0)).active 5 = true ∧
    ((notify_set_state_d (Daemon.mk (fun _ => true) (fun _ => 0)) 5
        18446744073709551615).2 = .ok () ∧
      notify_get_state_d
        (notify_set_state_d (Daemon.mk (fun _ => true) (fun _ => 0)) 5
          18446744073709551615).1 5 = .ok 18446744073709551615) :=
  ⟨by norm_num, rfl,
    set_get_state_roundtrip (Daemon.mk (fun _ => true) (fun _ => 0)) 5
      18446744073709551615 (by norm_num) rfl⟩

/-- Claim C10: from_u32 applied to 0 does not produce a success result;
it takes the catch-all arm, logging the bug diagnostic for code 0 and
returning Unknown, and the ok mapping for status 0 is performed by the
call-site dispatch (the ns_result! match) before from_u32 is ever
invoked: ns_result yields Ok exactly on 0, and from_u32 is only reached
on the non-zero arm. -/
theorem from_u32_zero_unknown_call_sites_handle_success :
    NotifyError.from_u32_traced 0 = (NotifyError.Unknown, [0]) ∧
    (∀ code : Nat, ns_result code = Except.ok () ↔ code = 0) ∧
    (∀ code : Nat, ns_result (code + 1) =
      Except.error (NotifyError.from_u32 (code + 1))) := by
  refine ⟨by decide, ?_, fun code => rfl⟩
  intro code
  rcases code with _ | n <;> simp [ns_result]
